import Mathlib

/-!
Shallow embedding of the page-generation pipeline of the blog repository:
the content data model, the createPages page builder of gatsby-node, the
listing component of src/pages/index.js, the post template of
src/templates/post.js and the default layout of src/layouts/default.js.
The build-time GraphQL layer is modelled from the query options declared
in the source files.
-/

namespace Blog

/-- An entry of the optional frontmatter list of extra page scripts: an
object with a `src` field, which is the only field the queries fetch. -/
structure PageScript where
  src : String

/-- The image payload under `childImageSharp` of a hero image node. -/
structure ImageSharp where
  gatsbyImageData : String

/-- A hero image reference from frontmatter; `childImageSharp` may be
absent when the referenced file is not an image. -/
structure Hero where
  childImageSharp : Option ImageSharp

/-- Frontmatter of a markdown post. Dates are represented by naturals
that are order-isomorphic to the ISO date strings of the markdown files
(for example 2021-01-01 becomes 20210101), which preserves the ordering
the framework sorts by. `hero` and `pageScripts` are optional. -/
structure Frontmatter where
  slug : String
  title : String
  date : Nat
  hero : Option Hero
  pageScripts : Option (List PageScript)

/-- A markdown content node as the markdown transformer exposes it to
the GraphQL queries: frontmatter, rendered html body, derived excerpt
and estimated reading time. -/
structure MarkdownNode where
  frontmatter : Frontmatter
  html : String
  excerpt : String
  timeToRead : Nat

/-- Build metadata sourced from version control: the latest commit hash
and commit date, as queried by the layout via `gitCommit(latest: {eq: true})`. -/
structure GitCommit where
  hash : String
  date : String

/-- Modelled from the query options declared both in the createPages
query of gatsby-node (src/unnamed/part_016 lines 57-75) and in the
listing query of src/src/pages/index.js lines 19-38, namely
`sort: { order: DESC, fields: [frontmatter___date] }` and `limit: 1000`:
the framework returns the markdown nodes sorted by frontmatter date in
descending order, capped at the limit. -/
def allMarkdownRemark (limit : Nat) (store : List MarkdownNode) : List MarkdownNode :=
  (store.insertionSort (fun a b => b.frontmatter.date ≤ a.frontmatter.date)).take limit

/-- One page registration produced by a single createPage call in
gatsby-node (src/unnamed/part_016 lines 84-92): output path, template
component, and the context payload (slug and pageScripts). -/
structure Page where
  path : String
  component : String
  contextSlug : String
  contextPageScripts : Option (List PageScript)

/-- The template component path resolved in src/unnamed/part_016 line 55. -/
def postTemplate : String := "./src/templates/post.js"

/-- The outcome of the GraphQL query awaited by createPages: an error
flag (`result.errors`) and the list of edges (`result.data.allMarkdownRemark.edges`). -/
structure QueryResult where
  errors : Bool
  edges : List MarkdownNode

/-- The observable outcome of running createPages: whether
`reporter.panicOnBuild` was called, and the createPage calls issued in order. -/
structure BuildOutcome where
  reportedError : Bool
  pages : List Page

/-- The page built from one edge in the forEach body of createPages
(src/unnamed/part_016 lines 83-93): path is the frontmatter slug, the
component is the post template, and the context carries the slug and
the pageScripts of the node. -/
def pageOf (n : MarkdownNode) : Page :=
  { path := n.frontmatter.slug
    component := postTemplate
    contextSlug := n.frontmatter.slug
    contextPageScripts := n.frontmatter.pageScripts }

/-- createPages from src/unnamed/part_016 lines 53-94: if the query
result has errors it reports a build error and returns before any
createPage call; otherwise it issues one createPage call per edge, in
edge order. -/
def createPages (result : QueryResult) : BuildOutcome :=
  if result.errors then
    { reportedError := true, pages := [] }
  else
    { reportedError := false, pages := result.edges.map pageOf }

/-- Modelled from the spec: the framework applies createPage calls in
order to a page registry, and a later call whose path equals the path of
an earlier page replaces it, so the page registered last for a path is
the one that wins. `finalPageAt calls p` is the page the registry holds
at path `p` after all calls. -/
def finalPageAt (calls : List Page) (p : String) : Option Page :=
  calls.foldl (fun acc pg => if pg.path = p then some pg else acc) none

/-- Rendered markup: text nodes, element nodes with attributes and
children, and the empty rendering (what React produces for null). -/
inductive Html where
  | text : String → Html
  | tag : String → List (String × String) → List Html → Html
  | null : Html

/-- The list of children of an element node. -/
def Html.childrenOf : Html → List Html
  | .tag _ _ cs => cs
  | _ => []

/-- The document-title expression of src/src/layouts/default.js line 19,
`title ? title : "avwie\x27s programming blog"`: a missing title and the
empty string are both falsy in JS, so both fall back to the default. -/
def documentTitle (title : Option String) : String :=
  match title with
  | none => "avwie\x27s programming blog"
  | some t => if t = "" then "avwie\x27s programming blog" else t

/-- JS String.prototype.substr: the substring of length `len` starting
at character index `start`. -/
def jsSubstr (s : String) (start len : Nat) : String :=
  ((s.toList.drop start).take len).asString

/-- The footer text of src/src/layouts/default.js line 50:
`Build { commit.gitCommit.hash.substr(0, 7) } - { commit.gitCommit.date }`. -/
def footerText (c : GitCommit) : String :=
  "Build " ++ jsSubstr c.hash 0 7 ++ " - " ++ c.date

/-- The navigation bar of src/src/layouts/default.js lines 21-45; the
dark-mode toggler render prop depends on client-side theme state and is
kept as an opaque element. -/
def navHtml : Html :=
  .tag "nav" [] [
    .tag "div" [("className", "container")] [
      .tag "a" [("href", "/")] [.text "@avwie\x27s programming blog"],
      .tag "div" [("className", "social")] [
        .tag "a" [("title", "Github"), ("href", "https://github.com/avwie"), ("target", "_blank"), ("rel", "noreferrer")]
          [.tag "img" [("alt", "Github"), ("width", "24"), ("height", "24"), ("src", "/layout/github-48.png")] []],
        .tag "a" [("title", "Mail"), ("href", "mailto:info@avwie.nl"), ("target", "_blank"), ("rel", "noreferrer")]
          [.tag "img" [("alt", "Mail"), ("width", "24"), ("height", "24"), ("src", "/layout/mail-48.png")] []],
        .tag "a" [("title", "Twitter"), ("href", "https://twitter.com/avwie"), ("target", "_blank"), ("rel", "noreferrer")]
          [.tag "img" [("alt", "Twitter"), ("width", "24"), ("height", "24"), ("src", "/layout/twitter-48.png")] []],
        .tag "ThemeToggler" [] []]]]

/-- DefaultLayout from src/src/layouts/default.js lines 6-54: a helmet
setting the document title, the navigation bar, a main slot for the page
content, and a footer showing the build metadata. -/
def DefaultLayout (title : Option String) (commit : GitCommit) (children : Html) : Html :=
  .tag "fragment" [] [
    .tag "Helmet" [] [.tag "title" [] [.text (documentTitle title)]],
    navHtml,
    .tag "main" [("className", "container")] [children],
    .tag "footer" [("className", "container")] [.tag "p" [] [.text (footerText commit)]]]

/-- The document title displayed by a rendered layout: the text of the
title element inside the leading helmet node. -/
def titleOf : Html → Option String
  | .tag _ _ (Html.tag "Helmet" _ [Html.tag "title" _ [Html.text s]] :: _) => some s
  | _ => none

/-- The footer text displayed by a rendered layout: the text of the
paragraph inside the trailing footer element. -/
def footerOf : Html → Option String
  | .tag _ _ [_, _, _, Html.tag "footer" _ [Html.tag "p" _ [Html.text s]]] => some s
  | _ => none

/-- Modelled from the GraphQL date formatter invoked by the queries
(`date(formatString: ...)`): an injective presentation of the date value;
the format string only affects presentation, not content or order. -/
def formatDate (d : Nat) : String := toString d

/-- The data prop handed to the post template by the page query of
src/src/templates/post.js lines 20-31 and src/unnamed/part_006 lines
40-55: `markdown` is null when no node matches the slug filter. -/
structure PostPageData where
  markdown : Option MarkdownNode

/-- Modelled from the page query filter of src/src/templates/post.js
line 22, `markdownRemark(frontmatter: { slug: { eq: $slug } })`: the
framework returns the first markdown node whose frontmatter slug equals
the query variable, or null when none matches. -/
def markdownRemarkBySlug (store : List MarkdownNode) (slug : String) : Option MarkdownNode :=
  store.find? (fun n => n.frontmatter.slug == slug)

/-- The script element rendered for one pageScripts entry in
src/unnamed/part_006 lines 16-21; only `src` is fetched by the query, so
`script.async || false` and `script.defer || false` are both false. -/
def scriptTag (s : PageScript) : Html :=
  .tag "script" [("src", s.src), ("async", "false"), ("defer", "false")] []

/-- The expression `{pageScripts && pageScripts.map(...)}` of
src/unnamed/part_006 lines 14-22: an absent (falsy) pageScripts renders
nothing, a present list renders one script element per entry, in order. -/
def headScripts (ps : Option (List PageScript)) : List Html :=
  match ps with
  | none => []
  | some scripts => scripts.map scriptTag

/-- The meta elements of the post helmet, src/unnamed/part_006 lines 24-29. -/
def postMetas (fm : Frontmatter) (excerpt : String) : List Html :=
  [.tag "meta" [("name", "title"), ("content", fm.title)] [],
   .tag "meta" [("name", "description"), ("content", excerpt)] [],
   .tag "meta" [("property", "og:title"), ("content", fm.title)] [],
   .tag "meta" [("property", "og:description"), ("content", excerpt)] [],
   .tag "meta" [("property", "og:type"), ("content", "website")] [],
   .tag "meta" [("property", "og:url"), ("content", "https://avwie.github.io" ++ fm.slug)] []]

/-- The helmet block of the post template, src/unnamed/part_006 lines
13-30: the optional page scripts followed by the meta elements, all
placed in the document head. -/
def postHelmet (fm : Frontmatter) (excerpt : String) : Html :=
  .tag "Helmet" [] (headScripts fm.pageScripts ++ postMetas fm excerpt)

/-- The post template component (src/unnamed/part_006 lines 6-36; the
variant at src/src/templates/post.js lines 5-16 renders the same body
without the helmet scripts). It dereferences `data.markdown.frontmatter`
unconditionally, so a null query result is a render-time type error;
otherwise it renders the layout with the post title, the helmet, the
heading, the date and the raw html body. -/
def Post (d : PostPageData) (commit : GitCommit) : Except String Html :=
  match d.markdown with
  | none => .error "TypeError: cannot read properties of null"
  | some m => .ok (DefaultLayout (some m.frontmatter.title) commit (.tag "fragment" [] [
      postHelmet m.frontmatter m.excerpt,
      .tag "h1" [] [.text m.frontmatter.title],
      .tag "h4" [] [.text (formatDate m.frontmatter.date)],
      .tag "div" [("dangerouslySetInnerHTML", m.html)] []]))

/-- Whether an element is a script element. -/
def isScriptTag : Html → Bool
  | .tag "script" _ _ => true
  | _ => false

/-- The script elements found in the document head of a rendered post
page: the helmet node is the first child of the fragment placed in the
main slot of the layout. -/
def postHeadOf : Except String Html → List Html
  | Except.ok (Html.tag _ _ [_, _, Html.tag _ _ [Html.tag _ _ (helmet :: _)], _]) =>
      helmet.childrenOf.filter isScriptTag
  | _ => []

/-- The props of one listing card, as extracted per edge in the Main
component (src/src/pages/index.js lines 40-47 and src/unnamed/part_000
lines 53-60): spread frontmatter plus excerpt and timeToRead. The hero
field is fetched only by the listing query of src/unnamed/part_000. -/
structure CardData where
  title : String
  slug : String
  date : String
  hero : Option Hero
  excerpt : String
  timeToRead : Nat

/-- The card props built from one markdown node by the listing components. -/
def cardOf (n : MarkdownNode) : CardData :=
  { title := n.frontmatter.title
    slug := n.frontmatter.slug
    date := formatDate n.frontmatter.date
    hero := n.frontmatter.hero
    excerpt := n.excerpt
    timeToRead := n.timeToRead }

/-- PostItem from src/src/pages/index.js lines 5-15: renders title,
date, reading time, excerpt and a link; it destructures only those five
props and never touches the hero field. -/
def indexPostItem (p : CardData) : Except String Html :=
  .ok (.tag "div" [("className", "post")] [
    .tag "h2" [] [.text p.title],
    .tag "p" [("className", "date")] [.text p.date],
    .tag "p" [("className", "reading-time")] [.text ("Reading time: " ++ toString p.timeToRead ++ " minutes")],
    .tag "p" [("className", "excerpt")] [.text p.excerpt],
    .tag "Link" [("title", p.title), ("className", "read-more"), ("to", p.slug)] [.text "Read more"]])

/-- Modelled from gatsby-plugin-image: `getImage` chains the optional
fields safely and yields the image data when all are present. -/
def getImage (hero : Option Hero) : Option String :=
  (hero.bind Hero.childImageSharp).map ImageSharp.gatsbyImageData

/-- Modelled from gatsby-plugin-image: the GatsbyImage component renders
nothing (with a console warning) when its image prop is missing. -/
def GatsbyImage (image : Option String) : Html :=
  match image with
  | none => Html.null
  | some data => .tag "GatsbyImage" [("image", data), ("alt", "hero")] []

/-- PostItem from src/unnamed/part_000 lines 6-23: passes the hero
through getImage and GatsbyImage, then renders the card body. -/
def heroCardPostItem (p : CardData) : Except String Html :=
  .ok (.tag "div" [("className", "mb-3 px-0 px-sm-2 col-lg-4 col-md-6 col-12")] [
    .tag "div" [("className", "card")] [
      GatsbyImage (getImage p.hero),
      .tag "div" [("className", "card-body")] [
        .tag "Link" [("className", "fs-5 card-title mb-2 d-block"), ("title", p.title), ("to", p.slug)] [.text p.title],
        .tag "h2" [("className", "fs-6 card-subtitle mb-2")] [.text p.date],
        .tag "h2" [("className", "fs-6 card-subtitle mb-2 text-secondary")] [.text ("Reading time: " ++ toString p.timeToRead ++ " minutes")],
        .tag "p" [("className", "card-text")] [.text p.excerpt],
        .tag "Link" [("title", p.title), ("className", "card-link btn btn-primary btn-small"), ("to", p.slug)] [.text "Read more"]]]])

/-- The posts array built by the Main listing component
(src/src/pages/index.js lines 40-47): one PostItem per edge of the
sorted, capped query result, in query order. -/
def mainPosts (store : List MarkdownNode) : List (Except String Html) :=
  (allMarkdownRemark 1000 store).map (fun n => indexPostItem (cardOf n))

/-- A sample latest commit used to instantiate the layout. -/
def commitSample : GitCommit :=
  { hash := "0123456789abcdef0123", date := "2023-05-01" }

/-- A sample pageScripts entry. -/
def scriptSample : PageScript := { src := "https://example.com/demo.js" }

/-- A sample hero image node. -/
def heroSample : Hero := { childImageSharp := some { gatsbyImageData := "imgdata" } }

/-- A sample post dated 2021-01-01, with no hero and no page scripts. -/
def nodeA : MarkdownNode :=
  { frontmatter := { slug := "/post-a", title := "Post A", date := 20210101, hero := none, pageScripts := none }
    html := "<p>a</p>"
    excerpt := "a..."
    timeToRead := 3 }

/-- A sample post dated 2023-01-01, with a hero and one page script. -/
def nodeB : MarkdownNode :=
  { frontmatter := { slug := "/post-b", title := "Post B", date := 20230101, hero := some heroSample, pageScripts := some [scriptSample] }
    html := "<p>b</p>"
    excerpt := "b..."
    timeToRead := 5 }

/-- A sample post dated 2022-01-01. -/
def nodeC : MarkdownNode :=
  { frontmatter := { slug := "/post-c", title := "Post C", date := 20220101, hero := none, pageScripts := none }
    html := "<p>c</p>"
    excerpt := "c..."
    timeToRead := 4 }

/-- A sample post sharing the slug of nodeA, with different content. -/
def nodeAdup : MarkdownNode :=
  { frontmatter := { slug := "/post-a", title := "Post A bis", date := 20230601, hero := none, pageScripts := none }
    html := "<p>a bis</p>"
    excerpt := "a bis..."
    timeToRead := 2 }

/-- A sample query result with two distinct posts and no errors. -/
def rAB : QueryResult := { errors := false, edges := [nodeA, nodeB] }

/-- A sample query result carrying errors. -/
def rErr : QueryResult := { errors := true, edges := [nodeA] }

/-- A sample query result whose two edges share a slug. -/
def rDup : QueryResult := { errors := false, edges := [nodeA, nodeAdup] }

/-- A successful query makes createPages register one page per edge, in order. -/
theorem createPages_ok (r : QueryResult) (he : r.errors = false) :
    createPages r = { reportedError := false, pages := r.edges.map pageOf } := by
  simp [createPages, he]

/-- The registered paths of a successful build are the edge slugs, in order. -/
theorem createPages_paths (r : QueryResult) (he : r.errors = false) :
    (createPages r).pages.map Page.path = r.edges.map (fun n => n.frontmatter.slug) := by
  rw [createPages_ok r he]
  simp [pageOf]

/-- C1: for every error-free query result whose edges carry pairwise
distinct slugs, createPages registers exactly one page per post and that
page's output path equals the post's slug: the registered path list is
exactly the slug list, and each slug occurs exactly once among the
registered paths, so no post is omitted and no slug gets two pages. -/
theorem createPages_one_page_per_slug (r : QueryResult) (he : r.errors = false)
    (hu : (r.edges.map (fun n => n.frontmatter.slug)).Nodup) :
    (createPages r).pages.map Page.path = r.edges.map (fun n => n.frontmatter.slug) ∧
    ∀ n ∈ r.edges, ((createPages r).pages.map Page.path).count n.frontmatter.slug = 1 := by
  refine ⟨createPages_paths r he, ?_⟩
  intro n hn
  rw [createPages_paths r he]
  exact List.count_eq_one_of_mem hu (List.mem_map_of_mem _ hn)

/-- Witness for C1 at a concrete error-free two-post query result. -/
theorem createPages_one_page_per_slug_witness :
    (createPages rAB).pages.map Page.path = rAB.edges.map (fun n => n.frontmatter.slug) ∧
    ∀ n ∈ rAB.edges, ((createPages rAB).pages.map Page.path).count n.frontmatter.slug = 1 :=
  createPages_one_page_per_slug rAB rfl (by decide)

/-- C3: a query result carrying errors makes createPages report a build
error and return with zero pages registered, never a subset. -/
theorem createPages_error_aborts (r : QueryResult) (he : r.errors = true) :
    (createPages r).reportedError = true ∧ (createPages r).pages = [] := by
  simp [createPages, he]

/-- Witness for C3 at a concrete erroring query result. -/
theorem createPages_error_aborts_witness :
    (createPages rErr).reportedError = true ∧ (createPages rErr).pages = [] :=
  createPages_error_aborts rErr rfl

/-- C6: createPages is deterministic — equal query results produce the
same reported flag and pagewise identical registrations: same paths,
same components, same context payloads. -/
theorem createPages_deterministic (r₁ r₂ : QueryResult) (h : r₁ = r₂) :
    (createPages r₁).reportedError = (createPages r₂).reportedError ∧
    (createPages r₁).pages.map Page.path = (createPages r₂).pages.map Page.path ∧
    (createPages r₁).pages.map Page.component = (createPages r₂).pages.map Page.component ∧
    (createPages r₁).pages.map (fun p => (p.contextSlug, p.contextPageScripts)) =
      (createPages r₂).pages.map (fun p => (p.contextSlug, p.contextPageScripts)) := by
  subst h
  exact ⟨rfl, rfl, rfl, rfl⟩

/-- Witness for C6 at a concrete query result. -/
theorem createPages_deterministic_witness :
    (createPages rAB).reportedError = (createPages rAB).reportedError ∧
    (createPages rAB).pages.map Page.path = (createPages rAB).pages.map Page.path ∧
    (createPages rAB).pages.map Page.component = (createPages rAB).pages.map Page.component ∧
    (createPages rAB).pages.map (fun p => (p.contextSlug, p.contextPageScripts)) =
      (createPages rAB).pages.map (fun p => (p.contextSlug, p.contextPageScripts)) :=
  createPages_deterministic rAB rAB rfl

/-- Registering pages none of which sits at path `s` leaves the registry
entry at `s` unchanged. -/
theorem foldl_register_no_match (s : String) (l : List Page) (acc : Option Page)
    (h : ∀ p ∈ l, p.path ≠ s) :
    l.foldl (fun a pg => if pg.path = s then some pg else a) acc = acc := by
  induction l generalizing acc with
  | nil => rfl
  | cons p l ih =>
    rw [List.foldl_cons, if_neg (h p (List.mem_cons_self p l))]
    exact ih acc (fun q hq => h q (List.mem_cons_of_mem p hq))

/-- C5: when an error-free query result contains posts sharing a slug,
createPages performs no duplicate-slug validation: it reports no error,
still issues one createPage call per post, and in the last-wins page
registry the page standing at a slug is the page of the last edge
carrying that slug. -/
theorem createPages_duplicate_slug_last_wins (r : QueryResult) (s : String)
    (l₁ l₂ : List MarkdownNode) (b : MarkdownNode)
    (he : r.errors = false) (hsplit : r.edges = l₁ ++ b :: l₂)
    (hb : b.frontmatter.slug = s) (hlast : ∀ n ∈ l₂, n.frontmatter.slug ≠ s) :
    (createPages r).reportedError = false ∧
    (createPages r).pages.length = r.edges.length ∧
    finalPageAt (createPages r).pages s = some (pageOf b) := by
  rw [createPages_ok r he]
  refine ⟨rfl, by simp, ?_⟩
  show finalPageAt (r.edges.map pageOf) s = some (pageOf b)
  unfold finalPageAt
  rw [hsplit, List.map_append, List.map_cons, List.foldl_append, List.foldl_cons,
    if_pos (show (pageOf b).path = s from hb)]
  refine foldl_register_no_match s _ _ ?_
  intro p hp
  rcases List.mem_map.1 hp with ⟨n, hn, rfl⟩
  exact hlast n hn

/-- Witness for C5 at a concrete query result whose two edges share the
slug of the first post; the later page wins. -/
theorem createPages_duplicate_slug_last_wins_witness :
    (createPages rDup).reportedError = false ∧
    (createPages rDup).pages.length = rDup.edges.length ∧
    finalPageAt (createPages rDup).pages "/post-a" = some (pageOf nodeAdup) :=
  createPages_duplicate_slug_last_wins rDup "/post-a" [nodeA] [] nodeAdup rfl rfl rfl
    (fun n hn => absurd hn (List.not_mem_nil n))

/-- The query result backing the listing is sorted by date, descending. -/
theorem sorted_allMarkdownRemark (limit : Nat) (store : List MarkdownNode) :
    List.Sorted (fun a b => b.frontmatter.date ≤ a.frontmatter.date)
      (allMarkdownRemark limit store) := by
  haveI : IsTotal MarkdownNode (fun a b => b.frontmatter.date ≤ a.frontmatter.date) :=
    ⟨fun a b => Nat.le_total _ _⟩
  haveI : IsTrans MarkdownNode (fun a b => b.frontmatter.date ≤ a.frontmatter.date) :=
    ⟨fun _ _ _ hab hbc => Nat.le_trans hbc hab⟩
  exact List.Pairwise.sublist (List.take_sublist _ _)
    (List.sorted_insertionSort _ store)

/-- C2: the listing presents posts sorted by date descending — the query
result is date-sorted descending and the Main component maps it to cards
in order — and on the concrete posts dated 2021-01-01, 2023-01-01 and
2022-01-01 the rendered order is 2023, 2022, 2021. -/
theorem listing_sorted_desc :
    (∀ store : List MarkdownNode,
        List.Sorted (fun a b => b.frontmatter.date ≤ a.frontmatter.date)
          (allMarkdownRemark 1000 store) ∧
        mainPosts store = (allMarkdownRemark 1000 store).map (fun n => indexPostItem (cardOf n))) ∧
    mainPosts [nodeA, nodeB, nodeC] =
      [indexPostItem (cardOf nodeB), indexPostItem (cardOf nodeC), indexPostItem (cardOf nodeA)] := by
  refine ⟨fun store => ⟨sorted_allMarkdownRemark 1000 store, rfl⟩, ?_⟩
  rfl

/-- C7: a post whose frontmatter lacks a hero image renders without
error in both listing card variants and in the post template; the
hero-using card renders an empty image slot rather than failing. -/
theorem no_hero_renders_ok (m : MarkdownNode) (c : GitCommit)
    (h : m.frontmatter.hero = none) :
    (∃ html, indexPostItem (cardOf m) = Except.ok html) ∧
    (∃ html, heroCardPostItem (cardOf m) = Except.ok html) ∧
    GatsbyImage (getImage (cardOf m).hero) = Html.null ∧
    (∃ html, Post { markdown := some m } c = Except.ok html) := by
  refine ⟨⟨_, rfl⟩, ⟨_, rfl⟩, ?_, ⟨_, rfl⟩⟩
  show GatsbyImage (getImage m.frontmatter.hero) = Html.null
  rw [h]
  rfl

/-- Witness for C7 at a concrete post with no hero image. -/
theorem no_hero_renders_ok_witness :
    (∃ html, indexPostItem (cardOf nodeA) = Except.ok html) ∧
    (∃ html, heroCardPostItem (cardOf nodeA) = Except.ok html) ∧
    GatsbyImage (getImage (cardOf nodeA).hero) = Html.null ∧
    (∃ html, Post { markdown := some nodeA } commitSample = Except.ok html) :=
  no_hero_renders_ok nodeA commitSample rfl

/-- C8: for every commit record with at least seven hash characters, the
layout footer displays the abbreviated commit hash — exactly the first
seven characters of the hash — followed by the commit date. -/
theorem footer_abbrev_hash (t : Option String) (ch : Html) (c : GitCommit)
    (h : 7 ≤ c.hash.length) :
    footerOf (DefaultLayout t c ch) = some ("Build " ++ jsSubstr c.hash 0 7 ++ " - " ++ c.date) ∧
    jsSubstr c.hash 0 7 = (c.hash.toList.take 7).asString ∧
    (jsSubstr c.hash 0 7).length = 7 := by
  refine ⟨rfl, rfl, ?_⟩
  have h7 : 7 ≤ c.hash.toList.length := h
  show (c.hash.toList.take 7).asString.length = 7
  have hlen : (c.hash.toList.take 7).asString.length = (c.hash.toList.take 7).length := rfl
  rw [hlen, List.length_take]
  omega

/-- Witness for C8 at a concrete commit record. -/
theorem footer_abbrev_hash_witness :
    footerOf (DefaultLayout none commitSample Html.null) =
      some ("Build " ++ jsSubstr commitSample.hash 0 7 ++ " - " ++ commitSample.date) ∧
    jsSubstr commitSample.hash 0 7 = (commitSample.hash.toList.take 7).asString ∧
    (jsSubstr commitSample.hash 0 7).length = 7 :=
  footer_abbrev_hash none Html.null commitSample (by decide)

/-- In a node list with pairwise distinct slugs, the slug filter of the
template query recovers exactly the member carrying that slug. -/
theorem find_by_slug_eq (l : List MarkdownNode) (n : MarkdownNode)
    (hu : (l.map (fun m => m.frontmatter.slug)).Nodup) (hn : n ∈ l) :
    markdownRemarkBySlug l n.frontmatter.slug = some n := by
  induction l with
  | nil => cases hn
  | cons m l ih =>
    rw [List.map_cons, List.nodup_cons] at hu
    unfold markdownRemarkBySlug
    rcases List.mem_cons.1 hn with rfl | hmem
    · rw [List.find?_cons_of_pos _ (by simp)]
    · have hne : (m.frontmatter.slug == n.frontmatter.slug) = false := by
        refine beq_eq_false_iff_ne.2 ?_
        intro hEq
        refine hu.1 ?_
        rw [hEq]
        exact List.mem_map_of_mem _ hmem
      rw [List.find?_cons_of_neg _ (by simp [hne])]
      exact ih hu.2 hmem

/-- C9: for every error-free query result with pairwise distinct slugs,
each post yields a registered page whose output path and context slug
are the post's slug, and running the template query with that context
slug returns exactly that post, so the page at path s renders the
content of the post whose slug is s. -/
theorem page_template_roundtrip (r : QueryResult) (n : MarkdownNode)
    (he : r.errors = false)
    (hu : (r.edges.map (fun m => m.frontmatter.slug)).Nodup)
    (hn : n ∈ r.edges) :
    ∃ pg ∈ (createPages r).pages,
      pg.path = n.frontmatter.slug ∧
      pg.contextSlug = n.frontmatter.slug ∧
      markdownRemarkBySlug r.edges pg.contextSlug = some n := by
  refine ⟨pageOf n, ?_, rfl, rfl, ?_⟩
  · rw [createPages_ok r he]
    exact List.mem_map_of_mem pageOf hn
  · show markdownRemarkBySlug r.edges n.frontmatter.slug = some n
    exact find_by_slug_eq r.edges n hu hn

/-- Witness for C9 at a concrete two-post query result. -/
theorem page_template_roundtrip_witness :
    ∃ pg ∈ (createPages rAB).pages,
      pg.path = nodeA.frontmatter.slug ∧
      pg.contextSlug = nodeA.frontmatter.slug ∧
      markdownRemarkBySlug rAB.edges pg.contextSlug = some nodeA :=
  page_template_roundtrip rAB nodeA rfl (by decide) (List.mem_cons_self _ _)

/-- Filtering the script elements out of mapped script tags keeps them all. -/
theorem filter_isScriptTag_map (l : List PageScript) :
    (l.map scriptTag).filter isScriptTag = l.map scriptTag := by
  induction l with
  | nil => rfl
  | cons s l ih =>
    rw [List.map_cons, List.filter_cons_of_pos rfl, ih]

/-- The meta elements of the post helmet contribute no script elements. -/
theorem filter_isScriptTag_postMetas (fm : Frontmatter) (ex : String) :
    (postMetas fm ex).filter isScriptTag = [] := rfl

/-- C4: the post template places one script element per pageScripts
entry in the document head, in order, and places none when the
frontmatter has no pageScripts. -/
theorem post_head_scripts (m : MarkdownNode) (c : GitCommit) :
    (∀ l, m.frontmatter.pageScripts = some l →
        postHeadOf (Post { markdown := some m } c) = l.map scriptTag) ∧
    (m.frontmatter.pageScripts = none →
        postHeadOf (Post { markdown := some m } c) = []) := by
  have hred : postHeadOf (Post { markdown := some m } c) =
      (headScripts m.frontmatter.pageScripts ++ postMetas m.frontmatter m.excerpt).filter isScriptTag := rfl
  constructor
  · intro l hl
    rw [hred, hl]
    show (l.map scriptTag ++ postMetas m.frontmatter m.excerpt).filter isScriptTag = l.map scriptTag
    rw [List.filter_append, filter_isScriptTag_map, filter_isScriptTag_postMetas, List.append_nil]
  · intro hl
    rw [hred, hl]
    show (([] : List Html) ++ postMetas m.frontmatter m.excerpt).filter isScriptTag = []
    rw [List.nil_append, filter_isScriptTag_postMetas]

/-- Witness for C4: a concrete post with one page script renders one
script element in the head, and a concrete post without pageScripts
renders none. -/
theorem post_head_scripts_witness :
    postHeadOf (Post { markdown := some nodeB } commitSample) = [scriptSample].map scriptTag ∧
    postHeadOf (Post { markdown := some nodeA } commitSample) = [] :=
  ⟨(post_head_scripts nodeB commitSample).1 [scriptSample] rfl,
   (post_head_scripts nodeA commitSample).2 rfl⟩

/-- C10: the layout sets the document title to the default when the
title prop is absent or empty (falsy in JS), and to exactly the given
title when it is non-empty. -/
theorem layout_document_title (t : Option String) (c : GitCommit) (ch : Html) :
    titleOf (DefaultLayout t c ch) = some (documentTitle t) ∧
    documentTitle none = "avwie\x27s programming blog" ∧
    documentTitle (some "") = "avwie\x27s programming blog" ∧
    ∀ s : String, s ≠ "" → documentTitle (some s) = s := by
  refine ⟨rfl, rfl, rfl, fun s hs => ?_⟩
  show (if s = "" then "avwie\x27s programming blog" else s) = s
  rw [if_neg hs]

/-- Witness for C10 at a concrete non-empty title. -/
theorem layout_document_title_witness :
    titleOf (DefaultLayout (some "Hello") commitSample Html.null) =
      some (documentTitle (some "Hello")) ∧
    documentTitle none = "avwie\x27s programming blog" ∧
    documentTitle (some "") = "avwie\x27s programming blog" ∧
    ∀ s : String, s ≠ "" → documentTitle (some s) = s :=
  layout_document_title (some "Hello") commitSample Html.null

end Blog
